import Mathlib

/-!
Verification of the EBS auto-scaler core, a shallow embedding of the
scaling decision-and-execution pipeline of `src/ebs-scaler.py`:
usage evaluation (`is_scaling_required`), free-space reconciliation and
cloud resize (`perform_scaling` / `resize_volume`), local partition and
filesystem growth (`expand_filesystem`), and the per-sweep control loop
(`monitor`).  External effects (the EC2 API, `blockdev`, `growpart`,
`blkid`, filesystem grow commands, `psutil` usage queries) are modelled
as environment records supplying the values the corresponding calls
would return; every caught exception path of the Python code is modelled
by an explicit error value (`Option.none`, a non-zero return code, or
`ModQuery.qerr`).  Byte counts are naturals, EC2 GiB sizes are integers,
and the float arithmetic on GB quantities is embedded as exact rational
arithmetic.
-/

namespace EbsScaler

/-- One tracked volume: the `VolumeInfo` dataclass of the source. -/
structure VolumeInfo where
  volume_id : String
  device_name : String
  mountpoint : String
  partition_path : String
deriving DecidableEq

/-! ## Cloud Resize Orchestrator: `resize_volume` -/

/-- Outcome of one `describe_volumes_modifications` query:
an empty `VolumesModifications` list, a modification record with the given
`ModificationState`, or a raised exception (caught inside the polling loop). -/
inductive ModQuery where
  | noMod : ModQuery
  | mstate : String → ModQuery
  | qerr : ModQuery
deriving DecidableEq

/-- A modification state that lets the polling loop continue:
neither `completed` nor `failed`, and the query itself succeeded. -/
def ModQuery.inProgress : ModQuery → Bool
  | .mstate s => !(s == "completed") && !(s == "failed")
  | _ => false

/-- Environment of one `resize_volume` call: what each EC2 API call returns.
`describeResult` is the initial `describe_volumes` answer `(Size, State)`
(`none` models a raised `ClientError`); `modifyResult` is the HTTP status code
of `modify_volume` (`none` models a raised `ClientError`); `modSeq i` is the
answer to the `describe_volumes_modifications` query of polling attempt `i`;
`verifySize` is the size reported by the final verification `describe_volumes`
(`none` models a raised `ClientError`). -/
structure Ec2Env where
  describeResult : Option (ℤ × String)
  modifyResult : Option ℕ
  modSeq : ℕ → ModQuery
  verifySize : Option ℤ

/-- `max_attempts = 30` of the polling loop in `resize_volume`. -/
def max_attempts : ℕ := 30

/-- `delay = 60` seconds between polling attempts in `resize_volume`. -/
def poll_delay_seconds : ℕ := 60

/-- Result of the polling `for attempt in range(max_attempts)` loop:
a `return False` taken inside the loop body at the given attempt index, a
`break` on state `completed` at the given attempt index, or natural loop
exhaustion (the argument is one past the last attempt index). -/
inductive PollOutcome where
  | pollFail : ℕ → PollOutcome
  | completedAt : ℕ → PollOutcome
  | exhausted : ℕ → PollOutcome
deriving DecidableEq

/-- The polling loop of `resize_volume`, one constructor step per attempt:
an exception or an empty modification list returns failure, `completed`
breaks, `failed` returns failure, anything else continues. -/
def pollFrom (modSeq : ℕ → ModQuery) : ℕ → ℕ → PollOutcome
  | 0, attempt => .exhausted attempt
  | fuel + 1, attempt =>
    match modSeq attempt with
    | .qerr => .pollFail attempt
    | .noMod => .pollFail attempt
    | .mstate s =>
      if s = "completed" then .completedAt attempt
      else if s = "failed" then .pollFail attempt
      else pollFrom modSeq fuel (attempt + 1)

/-- Number of `describe_volumes_modifications` queries the loop issued. -/
def PollOutcome.queries : PollOutcome → ℕ
  | .pollFail a => a + 1
  | .completedAt a => a + 1
  | .exhausted n => n

/-- Observable outcome of one `resize_volume` call: the returned boolean,
whether a `modify_volume` request was issued, and how many
`describe_volumes_modifications` queries were made. -/
structure ResizeResult where
  success : Bool
  modifyCalled : Bool
  statusQueries : ℕ
deriving DecidableEq

/-- The polling-and-verification tail of `resize_volume` (everything after the
modify-request decision).  The `attempt == max_attempts - 1` check of the
source runs after the loop, so it also fires when the loop broke on
`completed` at the final attempt. -/
def afterRequest (env : Ec2Env) (new_size : ℤ) (modifyCalled : Bool) : ResizeResult :=
  match pollFrom env.modSeq max_attempts 0 with
  | .pollFail a => ⟨false, modifyCalled, a + 1⟩
  | .exhausted n => ⟨false, modifyCalled, n⟩
  | .completedAt a =>
    if a = max_attempts - 1 then ⟨false, modifyCalled, a + 1⟩
    else
      match env.verifySize with
      | none => ⟨false, modifyCalled, a + 1⟩
      | some sz =>
        if sz = new_size then ⟨true, modifyCalled, a + 1⟩
        else if sz > new_size then ⟨true, modifyCalled, a + 1⟩
        else ⟨false, modifyCalled, a + 1⟩

/-- `resize_volume(volume_id, new_size)`: check current size and state,
short-circuit when already at target and `in-use`, issue `modify_volume`
when a resize is needed and the volume is not already `modifying`, then
poll and verify.  A `ClientError` anywhere returns `False`. -/
def resize_volume (env : Ec2Env) (new_size : ℤ) : ResizeResult :=
  match env.describeResult with
  | none => ⟨false, false, 0⟩
  | some (current_size, volume_state) =>
    if current_size = new_size ∧ volume_state = "in-use" then
      ⟨true, false, 0⟩
    else
      if current_size ≠ new_size ∧ volume_state ≠ "modifying" then
        match env.modifyResult with
        | none => ⟨false, true, 0⟩
        | some code =>
          if code ≠ 200 then ⟨false, true, 0⟩
          else afterRequest env new_size true
      else afterRequest env new_size false

/-- The call reaches the polling loop: the initial describe succeeded, the
short-circuit did not fire, and either no modify request was needed or the
modify request was accepted with HTTP 200. -/
def entersPolling (env : Ec2Env) (new_size : ℤ) : Bool :=
  match env.describeResult with
  | none => false
  | some (current_size, volume_state) =>
    if current_size = new_size ∧ volume_state = "in-use" then false
    else
      if current_size ≠ new_size ∧ volume_state ≠ "modifying" then
        match env.modifyResult with
        | none => false
        | some code => code == 200
      else true

/-! ## Python string primitives

The source uses `os.path.basename`, `str.split` with a one-character
separator, the substring test `'p' in s`, and `str.startswith`.  They are
embedded structurally over the character list of a `String` so that a
witness can evaluate them. -/

/-- Python `s.split(sep)` for a one-character separator, on character lists:
splitting at every occurrence of `sep`, keeping empty groups
(`"xvdp".split("p") == ["xvd", ""]`). -/
def charSplit (sep : Char) : List Char → List (List Char)
  | [] => [[]]
  | c :: cs =>
    match charSplit sep cs with
    | [] => [[c]]
    | g :: gs => if c = sep then [] :: g :: gs else (c :: g) :: gs

/-- Python `s.split(sep)` for a one-character separator. -/
def pySplit (s : String) (sep : Char) : List String :=
  (charSplit sep s.data).map String.mk

/-- Python `c in s` for a one-character needle. -/
def pyContainsChar (s : String) (c : Char) : Bool :=
  s.data.contains c

/-- Python `s.startswith(pre)`. -/
def pyStartsWith (s pre : String) : Bool :=
  pre.data.isPrefixOf s.data

/-! ## Local Growth Executor: `expand_filesystem` -/

/-- `os.path.basename`: the part of the path after the last slash. -/
def os_path_basename (p : String) : String :=
  List.getLastD (pySplit p '/') ""

/-- `math.ceil(bytes / (1024 ** 3))`: OS-visible device size in whole GB. -/
def ceil_gb (bytes : ℕ) : ℤ := ⌈(bytes : ℚ) / 2 ^ 30⌉

/-- Environment of one `expand_filesystem` call: `deviceSizes i` is what
`blockdev --getsize64` reports on wait attempt `i` (`get_device_size`
returns `0` when the command fails), `growpartRc` is the `growpart` exit
code, `blkidType` the filesystem type printed by `blkid`, and the two grow
commands report the given exit codes. -/
structure FsEnv where
  deviceSizes : ℕ → ℕ
  growpartRc : ℤ
  blkidType : String
  xfsGrowRc : ℤ
  resize2fsRc : ℤ

/-- The device-size convergence wait of `expand_filesystem`:
`for attempt in range(12)`, break when the rounded-up device size equals the
expected total, `return False` when attempt 11 still differs, else sleep and
retry.  Returns (converged, number of size checks made). -/
def sizeWait (sizes : ℕ → ℕ) (expected : ℤ) : ℕ → ℕ → Bool × ℕ
  | 0, _ => (false, 0)
  | fuel + 1, attempt =>
    if ceil_gb (sizes attempt) = expected then (true, attempt + 1)
    else if attempt = 11 then (false, attempt + 1)
    else sizeWait sizes expected fuel (attempt + 1)

/-- Observable outcome of one `expand_filesystem` call: the returned boolean,
the number of device-size checks, whether and with which arguments `growpart`
ran, whether `blkid` probed the filesystem type, and whether and against which
target a filesystem grow command ran. -/
structure FsResult where
  success : Bool
  sizeChecks : ℕ
  growpartCalled : Bool
  growpartArgs : Option (String × String)
  blkidCalled : Bool
  fsGrowCalled : Bool
  fsGrowTarget : Option String
deriving DecidableEq

/-- The filesystem-growth tail of `expand_filesystem`: probe the type with
`blkid`, grow XFS via the mount point with `xfs_growfs -d`, anything else via
the partition path with `resize2fs`. -/
def fsGrowStep (env : FsEnv) (volume : VolumeInfo) (checks : ℕ)
    (gpc : Bool) (gpa : Option (String × String)) : FsResult :=
  let fs_type := env.blkidType
  if fs_type = "xfs" then
    if env.xfsGrowRc ≠ 0 then ⟨false, checks, gpc, gpa, true, true, some volume.mountpoint⟩
    else ⟨true, checks, gpc, gpa, true, true, some volume.mountpoint⟩
  else
    if env.resize2fsRc ≠ 0 then ⟨false, checks, gpc, gpa, true, true, some volume.partition_path⟩
    else ⟨true, checks, gpc, gpa, true, true, some volume.partition_path⟩

/-- `expand_filesystem(volume, expected_volume_total_size_gb)`: wait for the
root device size to converge, grow the partition when the base name of the
partition path contains the character `p` (the source's partition test),
then grow the filesystem. -/
def expand_filesystem (env : FsEnv) (volume : VolumeInfo) (expected : ℤ) : FsResult :=
  let device_path := "/dev/" ++ volume.device_name
  let waited := sizeWait env.deviceSizes expected 12 0
  if !waited.1 then ⟨false, waited.2, false, none, false, false, none⟩
  else
    let base := os_path_basename volume.partition_path
    if pyContainsChar base 'p' then
      let partition_number := List.getLastD (pySplit base 'p') ""
      if env.growpartRc ≠ 0 then
        ⟨false, waited.2, true, some (device_path, partition_number), false, false, none⟩
      else fsGrowStep env volume waited.2 true (some (device_path, partition_number))
    else fsGrowStep env volume waited.2 false none

/-! ## Free-Space Reconciler: `perform_scaling` -/

/-- Environment of one `perform_scaling` call: the byte size `blockdev`
reports for the root device, the mounted partition table
(`psutil.disk_partitions(all=True)`) as pairs of device path and byte size,
and the environments of the nested cloud-resize and filesystem-growth calls. -/
structure PerformEnv where
  rootDeviceSize : ℕ
  partitions : List (String × ℕ)
  ec2 : Ec2Env
  fs : FsEnv

/-- `root_device_path = f"/dev/{volume.device_name}"`. -/
def root_device_path (volume : VolumeInfo) : String :=
  "/dev/" ++ volume.device_name

/-- Sum of the byte sizes of the partitions whose device path starts with the
root device path (steps 2 of `perform_scaling`). -/
def partition_sum_bytes (env : PerformEnv) (volume : VolumeInfo) : ℕ :=
  (List.map Prod.snd
    (env.partitions.filter fun p => pyStartsWith p.1 (root_device_path volume))).sum

/-- `volume_total_size_gb = volume_total_size_bytes / (1024 ** 3)`. -/
def volume_total_size_gb (env : PerformEnv) : ℚ :=
  (env.rootDeviceSize : ℚ) / 2 ^ 30

/-- `free_space_gb = (volume_total_size_bytes - partition_sum_bytes) / (1024 ** 3)`. -/
def free_space_gb (env : PerformEnv) (volume : VolumeInfo) : ℚ :=
  ((env.rootDeviceSize : ℚ) - (partition_sum_bytes env volume : ℚ)) / 2 ^ 30

/-- `additional_volume_needed_gb = math.ceil(increase_gb - free_space_gb)`. -/
def additional_volume_needed_gb (increase_gb : ℤ) (env : PerformEnv)
    (volume : VolumeInfo) : ℤ :=
  ⌈(increase_gb : ℚ) - free_space_gb env volume⌉

/-- The value a Python function call evaluates to where the source either
returns an explicit boolean or falls off the end (returning `None`). -/
inductive PyRet where
  | vTrue : PyRet
  | vFalse : PyRet
  | vNone : PyRet
deriving DecidableEq

/-- Python truthiness of a `PyRet` value: only `True` is truthy. -/
def PyRet.truthy : PyRet → Bool
  | .vTrue => true
  | _ => false

/-- Observable outcome of one `perform_scaling` call: the value the function
returns (note the source has no `return True`), the target handed to
`resize_volume` when a cloud resize was requested, the size carried by an
actual `modify_volume` request if one was issued, the
`expected_new_volume_total_size_gb` the filesystem step is asked to reach,
and the outcome of the `expand_filesystem` call when one was made. -/
structure PerformResult where
  ret : PyRet
  resizeTarget : Option ℤ
  modifyArg : Option ℤ
  expectedTarget : ℤ
  fsResult : Option FsResult
deriving DecidableEq

/-- `perform_scaling(volume, total_new_size_quote_gb)`: reconcile free space,
request a cloud resize only when the unused raw tail is smaller than the
configured increment, then expand the filesystem.  On the all-success path
the source falls off the end of the function and returns `None`. -/
def perform_scaling (increase_gb : ℤ) (env : PerformEnv) (volume : VolumeInfo)
    (total_new_size_quote_gb : ℚ) : PerformResult :=
  let _quote := total_new_size_quote_gb
  let additional := additional_volume_needed_gb increase_gb env volume
  if 0 < additional then
    let expected : ℤ := ⌈volume_total_size_gb env + (additional : ℚ)⌉
    let r := resize_volume env.ec2 expected
    let marg : Option ℤ := if r.modifyCalled then some expected else none
    if r.success then
      let f := expand_filesystem env.fs volume expected
      if f.success then ⟨.vNone, some expected, marg, expected, some f⟩
      else ⟨.vFalse, some expected, marg, expected, some f⟩
    else ⟨.vFalse, some expected, marg, expected, none⟩
  else
    let expected : ℤ := ⌈volume_total_size_gb env⌉
    let f := expand_filesystem env.fs volume expected
    if f.success then ⟨.vNone, none, none, expected, some f⟩
    else ⟨.vFalse, none, none, expected, some f⟩

/-! ## Usage Monitor: `is_scaling_required` -/

/-- Configuration values the core reads: fill threshold (percent), fixed
growth increment (GB, an integer in the config file), and the excluded
volume-id list. -/
structure Config where
  threshold : ℚ
  increase_gb : ℤ
  excluded_volumes : List String

/-- A `psutil.disk_usage` answer: total bytes and percent full;
`none` models a raised exception (unmounted path, permission error). -/
def UsageQuery : Type := Option (ℕ × ℚ)

/-- `is_scaling_required(volume)`: `(do_scale, usage_percent, size_to_scale)`.
Scaling is needed exactly when the usage percent strictly exceeds the
threshold, and then the naive target is `current_total_gb + increase_gb`;
a failed usage query returns `(False, 0, 0)`. -/
def is_scaling_required (cfg : Config) (usage : UsageQuery) : Bool × ℚ × ℚ :=
  match usage with
  | none => (false, 0, 0)
  | some (total, percent) =>
    if cfg.threshold < percent then
      (true, percent, (total : ℚ) / 2 ^ 30 + (cfg.increase_gb : ℚ))
    else (false, percent, 0)

/-! ## Control Loop: one sweep of `monitor` -/

/-- Per-volume slice of the sweep environment: the volume record, its usage
query answer, and the environment of the `perform_scaling` call that would
run for it. -/
structure SweepVolEnv where
  volume : VolumeInfo
  usage : UsageQuery
  penv : PerformEnv

/-- What the control loop did for one volume in one sweep: skipped as
excluded, judged below threshold (with the observed usage percent), or ran
the scaling chain (with the decision data and the `perform_scaling` outcome). -/
inductive VolAction where
  | excludedSkip : VolAction
  | notNeeded : ℚ → VolAction
  | attempted : ℚ → ℚ → PerformResult → VolAction
deriving DecidableEq

/-- One iteration of the sweep loop in `monitor` for one volume. -/
def processVolume (cfg : Config) (e : SweepVolEnv) : VolAction :=
  if e.volume.volume_id ∈ cfg.excluded_volumes then .excludedSkip
  else
    match is_scaling_required cfg e.usage with
    | (false, pct, _) => .notNeeded pct
    | (true, pct, quote) =>
      .attempted pct quote (perform_scaling cfg.increase_gb e.penv e.volume quote)

/-- The size carried by a `modify_volume` request issued while processing
this volume, if any. -/
def VolAction.modifyArg : VolAction → Option ℤ
  | .attempted _ _ r => r.modifyArg
  | _ => none

/-- Whether a `growpart` invocation happened while processing this volume. -/
def VolAction.growpartCalled : VolAction → Bool
  | .attempted _ _ r =>
    match r.fsResult with
    | some f => f.growpartCalled
    | none => false
  | _ => false

/-- Whether a filesystem grow command ran while processing this volume. -/
def VolAction.fsGrowCalled : VolAction → Bool
  | .attempted _ _ r =>
    match r.fsResult with
    | some f => f.fsGrowCalled
    | none => false
  | _ => false

/-- The `volumes_scaled` list a sweep accumulates: one entry per volume whose
`perform_scaling` call returned a truthy value. -/
def sweepScaled (cfg : Config) : List SweepVolEnv → List VolumeInfo
  | [] => []
  | e :: rest =>
    match processVolume cfg e with
    | .attempted _ _ r =>
      if r.ret.truthy then e.volume :: sweepScaled cfg rest
      else sweepScaled cfg rest
    | _ => sweepScaled cfg rest

/-- `if volumes_scaled: send_notification(volumes_scaled)` at sweep end:
the notification collaborator is handed the list exactly when it is
non-empty. -/
def notificationSent (cfg : Config) (envs : List SweepVolEnv) : Bool :=
  !(sweepScaled cfg envs).isEmpty

/-- The usage decisions a sweep evaluates, in order: for every non-excluded
volume, the pair of its id and its `is_scaling_required` answer. -/
def sweepDecisions (cfg : Config) : List SweepVolEnv → List (String × (Bool × ℚ × ℚ))
  | [] => []
  | e :: rest =>
    if e.volume.volume_id ∈ cfg.excluded_volumes then sweepDecisions cfg rest
    else (e.volume.volume_id, is_scaling_required cfg e.usage) :: sweepDecisions cfg rest

/-! ## Concrete test fixtures

Closed environments used to instantiate the theorems below; byte sizes are
exact GiB multiples (`g * 2 ^ 30`). -/

/-- An nvme-style partitioned volume: partition 1 of `/dev/nvme0n1`. -/
def vol1 : VolumeInfo :=
  { volume_id := "vol-0a1", device_name := "nvme0n1", mountpoint := "/data",
    partition_path := "/dev/nvme0n1p1" }

/-- A second tracked volume, used for sweep-isolation instances. -/
def vol2 : VolumeInfo :=
  { volume_id := "vol-0c3", device_name := "nvme1n1", mountpoint := "/logs",
    partition_path := "/dev/nvme1n1p1" }

/-- A whole, unpartitioned device whose name happens to contain `p`:
its partition path is the device path itself. -/
def volXvdp : VolumeInfo :=
  { volume_id := "vol-0b2", device_name := "xvdp", mountpoint := "/data",
    partition_path := "/dev/xvdp" }

/-- EC2 answers for a clean resize 100 → 110 that completes on the first
status query and verifies at exactly the target. -/
def ec2ok : Ec2Env :=
  { describeResult := some (100, "in-use")
    modifyResult := some 200
    modSeq := fun _ => .mstate "completed"
    verifySize := some 110 }

/-- EC2 answers where the modification reads `optimizing` for 29 attempts and
`completed` exactly on the 30th (final) polling attempt; the verification
describe would report exactly the target. -/
def ec2CompletedLast : Ec2Env :=
  { describeResult := some (100, "in-use")
    modifyResult := some 200
    modSeq := fun i => if i = 29 then .mstate "completed" else .mstate "optimizing"
    verifySize := some 110 }

/-- EC2 answers realizing the spec's polling example: three `optimizing`
states, then `completed` on the fourth query. -/
def ec2FourQueries : Ec2Env :=
  { describeResult := some (100, "in-use")
    modifyResult := some 200
    modSeq := fun i => if i < 3 then .mstate "optimizing" else .mstate "completed"
    verifySize := some 110 }

/-- EC2 answers for a volume already at the target size and `in-use`. -/
def ec2Idem : Ec2Env :=
  { describeResult := some (110, "in-use")
    modifyResult := some 200
    modSeq := fun _ => .mstate "optimizing"
    verifySize := some 110 }

/-- EC2 answers for a volume already being modified; the first modification
status query reports `failed`. -/
def ec2Modifying : Ec2Env :=
  { describeResult := some (100, "modifying")
    modifyResult := none
    modSeq := fun _ => .mstate "failed"
    verifySize := none }

/-- EC2 answers where the verification describe reports 120GB, larger than
the 110GB target. -/
def ec2Larger : Ec2Env :=
  { describeResult := some (100, "in-use")
    modifyResult := some 200
    modSeq := fun _ => .mstate "completed"
    verifySize := some 120 }

/-- EC2 answers where the very first `describe_volumes` raises. -/
def ec2Broken : Ec2Env :=
  { describeResult := none
    modifyResult := none
    modSeq := fun _ => .qerr
    verifySize := none }

/-- Local answers for a device that converged to 110GB; XFS, all tools
succeed. -/
def fsOk : FsEnv :=
  { deviceSizes := fun _ => 110 * 2 ^ 30, growpartRc := 0, blkidType := "xfs",
    xfsGrowRc := 0, resize2fsRc := 0 }

/-- Local answers for a device steady at 100GB; all tools succeed. -/
def fsAt100 : FsEnv :=
  { deviceSizes := fun _ => 100 * 2 ^ 30, growpartRc := 0, blkidType := "xfs",
    xfsGrowRc := 0, resize2fsRc := 0 }

/-- Local answers for a device steady at 120GB (beyond a 110GB target). -/
def fsAt120 : FsEnv :=
  { deviceSizes := fun _ => 120 * 2 ^ 30, growpartRc := 0, blkidType := "xfs",
    xfsGrowRc := 0, resize2fsRc := 0 }

/-- Local answers where `growpart` exits non-zero on a converged device. -/
def fsGpFail : FsEnv :=
  { deviceSizes := fun _ => 110 * 2 ^ 30, growpartRc := 2, blkidType := "xfs",
    xfsGrowRc := 0, resize2fsRc := 0 }

/-- Scaling environment for `vol1`: raw device 100GB, one 90GB partition,
clean cloud resize to 110GB, local growth succeeds. -/
def penv1 : PerformEnv :=
  { rootDeviceSize := 100 * 2 ^ 30
    partitions := [("/dev/nvme0n1p1", 90 * 2 ^ 30)]
    ec2 := ec2ok
    fs := fsOk }

/-- Scaling environment for `vol2` whose very first cloud describe raises. -/
def penvBroken : PerformEnv :=
  { rootDeviceSize := 100 * 2 ^ 30
    partitions := [("/dev/nvme1n1p1", 90 * 2 ^ 30)]
    ec2 := ec2Broken
    fs := fsOk }

/-- Threshold 80 percent, increment 20GB, nothing excluded. -/
def cfg1 : Config :=
  { threshold := 80, increase_gb := 20, excluded_volumes := [] }

/-- `vol1` at 95 percent usage on a 100GB filesystem: scaling triggers and
the whole chain succeeds. -/
def senv1 : SweepVolEnv :=
  { volume := vol1, usage := some (100 * 2 ^ 30, 95), penv := penv1 }

/-- `vol1` at 70 percent usage: below the threshold. -/
def senvLow : SweepVolEnv :=
  { volume := vol1, usage := some (100 * 2 ^ 30, 70), penv := penv1 }

/-- `vol2` at 95 percent usage but with a failing cloud describe: its scaling
attempt fails. -/
def senvBroken : SweepVolEnv :=
  { volume := vol2, usage := some (100 * 2 ^ 30, 95), penv := penvBroken }

/-! ## Helper lemmas -/

lemma ceil_gb_mul (g : ℕ) : ceil_gb (g * 2 ^ 30) = g := by
  unfold ceil_gb
  push_cast
  rw [mul_div_assoc]
  norm_num

lemma sizeWait_immediate (sizes : ℕ → ℕ) (exp : ℤ) (fuel attempt : ℕ)
    (h : ceil_gb (sizes attempt) = exp) :
    sizeWait sizes exp (fuel + 1) attempt = (true, attempt + 1) := by
  simp [sizeWait, h]

lemma sizeWait_all_ne (sizes : ℕ → ℕ) (exp : ℤ) :
    ∀ fuel attempt, attempt + fuel = 12 → 0 < fuel →
    (∀ i, attempt ≤ i → i < 12 → ceil_gb (sizes i) ≠ exp) →
    sizeWait sizes exp fuel attempt = (false, 12) := by
  intro fuel
  induction fuel with
  | zero => intro attempt _ hpos _; omega
  | succ f ih =>
    intro attempt hsum _ hne
    have h1 : ceil_gb (sizes attempt) ≠ exp := hne attempt le_rfl (by omega)
    by_cases h11 : attempt = 11
    · subst h11
      simp [sizeWait, if_neg h1]
    · have hf : 0 < f := by omega
      simp only [sizeWait, if_neg h1, if_neg h11]
      exact ih (attempt + 1) (by omega) hf (fun i hi1 hi2 => hne i (by omega) hi2)

lemma sizeWait_true_exists (sizes : ℕ → ℕ) (exp : ℤ) :
    ∀ fuel attempt c, sizeWait sizes exp fuel attempt = (true, c) →
    ∃ i, attempt ≤ i ∧ i < attempt + fuel ∧ ceil_gb (sizes i) = exp := by
  intro fuel
  induction fuel with
  | zero => intro attempt c h; simp [sizeWait] at h
  | succ f ih =>
    intro attempt c h
    by_cases heq : ceil_gb (sizes attempt) = exp
    · exact ⟨attempt, le_rfl, by omega, heq⟩
    · simp only [sizeWait, if_neg heq] at h
      by_cases h11 : attempt = 11
      · rw [if_pos h11] at h
        simp at h
      · rw [if_neg h11] at h
        obtain ⟨i, hi1, hi2, hi3⟩ := ih (attempt + 1) c h
        exact ⟨i, by omega, by omega, hi3⟩

lemma ModQuery.inProgress_iff (q : ModQuery) :
    q.inProgress = true ↔ ∃ s, q = .mstate s ∧ s ≠ "completed" ∧ s ≠ "failed" := by
  cases q with
  | noMod => simp [ModQuery.inProgress]
  | qerr => simp [ModQuery.inProgress]
  | mstate s => simp [ModQuery.inProgress]

lemma pollFrom_queries_le (modSeq : ℕ → ModQuery) :
    ∀ fuel attempt, (pollFrom modSeq fuel attempt).queries ≤ attempt + fuel := by
  intro fuel
  induction fuel with
  | zero => intro attempt; simp [pollFrom, PollOutcome.queries]
  | succ f ih =>
    intro attempt
    cases h : modSeq attempt with
    | qerr => simp [pollFrom, h, PollOutcome.queries]
    | noMod => simp [pollFrom, h, PollOutcome.queries]
    | mstate s =>
      by_cases hc : s = "completed"
      · simp [pollFrom, h, hc, PollOutcome.queries]
      · by_cases hf : s = "failed"
        · simp [pollFrom, h, hc, hf, PollOutcome.queries]
        · simp only [pollFrom, h, if_neg hc, if_neg hf]
          have := ih (attempt + 1)
          omega

lemma pollFrom_attempt_le_queries (modSeq : ℕ → ModQuery) :
    ∀ fuel attempt, attempt ≤ (pollFrom modSeq fuel attempt).queries := by
  intro fuel
  induction fuel with
  | zero => intro attempt; simp [pollFrom, PollOutcome.queries]
  | succ f ih =>
    intro attempt
    cases h : modSeq attempt with
    | qerr => simp [pollFrom, h, PollOutcome.queries]
    | noMod => simp [pollFrom, h, PollOutcome.queries]
    | mstate s =>
      by_cases hc : s = "completed"
      · simp [pollFrom, h, hc, PollOutcome.queries]
      · by_cases hf : s = "failed"
        · simp [pollFrom, h, hc, hf, PollOutcome.queries]
        · simp only [pollFrom, h, if_neg hc, if_neg hf]
          have := ih (attempt + 1)
          omega

lemma pollFrom_queries_pos (modSeq : ℕ → ModQuery) (fuel attempt : ℕ)
    (hf : 0 < fuel) : attempt + 1 ≤ (pollFrom modSeq fuel attempt).queries := by
  obtain ⟨f, rfl⟩ : ∃ f, fuel = f + 1 := ⟨fuel - 1, by omega⟩
  cases h : modSeq attempt with
  | qerr => simp [pollFrom, h, PollOutcome.queries]
  | noMod => simp [pollFrom, h, PollOutcome.queries]
  | mstate s =>
    by_cases hc : s = "completed"
    · simp [pollFrom, h, hc, PollOutcome.queries]
    · by_cases hfd : s = "failed"
      · simp [pollFrom, h, hc, hfd, PollOutcome.queries]
      · simp only [pollFrom, h, if_neg hc, if_neg hfd]
        have := pollFrom_attempt_le_queries modSeq f (attempt + 1)
        omega

lemma pollFrom_prefix_failed (modSeq : ℕ → ModQuery) :
    ∀ fuel attempt k, attempt ≤ k → k < attempt + fuel →
    (∀ i, attempt ≤ i → i < k → (modSeq i).inProgress = true) →
    modSeq k = .mstate "failed" →
    pollFrom modSeq fuel attempt = .pollFail k := by
  intro fuel
  induction fuel with
  | zero => intro attempt k h1 h2 _ _; omega
  | succ f ih =>
    intro attempt k h1 h2 hpre hk
    by_cases hak : attempt = k
    · subst hak
      simp [pollFrom, hk]
    · have hlt : attempt < k := by omega
      obtain ⟨s, hs, hsc, hsf⟩ :=
        (ModQuery.inProgress_iff _).mp (hpre attempt le_rfl hlt)
      simp only [pollFrom, hs, if_neg hsc, if_neg hsf]
      exact ih (attempt + 1) k (by omega) (by omega)
        (fun i hi1 hi2 => hpre i (by omega) hi2) hk

lemma pollFrom_all_inProgress (modSeq : ℕ → ModQuery) :
    ∀ fuel attempt,
    (∀ i, attempt ≤ i → i < attempt + fuel → (modSeq i).inProgress = true) →
    pollFrom modSeq fuel attempt = .exhausted (attempt + fuel) := by
  intro fuel
  induction fuel with
  | zero => intro attempt _; simp [pollFrom]
  | succ f ih =>
    intro attempt hpre
    obtain ⟨s, hs, hsc, hsf⟩ :=
      (ModQuery.inProgress_iff _).mp (hpre attempt le_rfl (by omega))
    simp only [pollFrom, hs, if_neg hsc, if_neg hsf]
    rw [ih (attempt + 1) (fun i hi1 hi2 => hpre i (by omega) (by omega))]
    congr 1
    omega

lemma afterRequest_modifyCalled (env : Ec2Env) (t : ℤ) (b : Bool) :
    (afterRequest env t b).modifyCalled = b := by
  unfold afterRequest
  rcases pollFrom env.modSeq max_attempts 0 with a | a | n
  · rfl
  · dsimp only
    split
    · rfl
    · rcases env.verifySize with _ | sz
      · rfl
      · dsimp only
        split
        · rfl
        · split <;> rfl
  · rfl

lemma afterRequest_queries (env : Ec2Env) (t : ℤ) (b : Bool) :
    (afterRequest env t b).statusQueries = (pollFrom env.modSeq max_attempts 0).queries := by
  unfold afterRequest
  rcases pollFrom env.modSeq max_attempts 0 with a | a | n
  · rfl
  · dsimp only [PollOutcome.queries]
    split
    · rfl
    · rcases env.verifySize with _ | sz
      · rfl
      · dsimp only
        split
        · rfl
        · split <;> rfl
  · rfl

lemma afterRequest_pollFail (env : Ec2Env) (t : ℤ) (b : Bool) (a : ℕ)
    (h : pollFrom env.modSeq max_attempts 0 = .pollFail a) :
    afterRequest env t b = ⟨false, b, a + 1⟩ := by
  unfold afterRequest
  rw [h]

lemma afterRequest_exhausted (env : Ec2Env) (t : ℤ) (b : Bool) (n : ℕ)
    (h : pollFrom env.modSeq max_attempts 0 = .exhausted n) :
    afterRequest env t b = ⟨false, b, n⟩ := by
  unfold afterRequest
  rw [h]

lemma resize_volume_poll (env : Ec2Env) (t : ℤ)
    (h : entersPolling env t = true) :
    ∃ b, resize_volume env t = afterRequest env t b := by
  unfold resize_volume
  unfold entersPolling at h
  cases hd : env.describeResult with
  | none => rw [hd] at h; cases h
  | some p =>
    obtain ⟨cs, st⟩ := p
    rw [hd] at h
    dsimp only at h ⊢
    by_cases h1 : cs = t ∧ st = "in-use"
    · rw [if_pos h1] at h; cases h
    · rw [if_neg h1] at h ⊢
      by_cases h2 : cs ≠ t ∧ st ≠ "modifying"
      · rw [if_pos h2] at h ⊢
        cases hm : env.modifyResult with
        | none => rw [hm] at h; cases h
        | some code =>
          rw [hm] at h
          dsimp only at h ⊢
          have hcode : code = 200 := by simpa using h
          subst hcode
          rw [if_neg (by simp)]
          exact ⟨true, rfl⟩
      · rw [if_neg h2] at h ⊢
        exact ⟨false, rfl⟩

lemma resize_volume_cases (env : Ec2Env) (t : ℤ) :
    resize_volume env t = ⟨false, false, 0⟩ ∨
    resize_volume env t = ⟨true, false, 0⟩ ∨
    resize_volume env t = ⟨false, true, 0⟩ ∨
    ∃ b, resize_volume env t = afterRequest env t b := by
  unfold resize_volume
  cases hd : env.describeResult with
  | none => exact Or.inl rfl
  | some p =>
    obtain ⟨cs, st⟩ := p
    dsimp only
    by_cases h1 : cs = t ∧ st = "in-use"
    · rw [if_pos h1]
      exact Or.inr (Or.inl rfl)
    · rw [if_neg h1]
      by_cases h2 : cs ≠ t ∧ st ≠ "modifying"
      · rw [if_pos h2]
        cases hm : env.modifyResult with
        | none => exact Or.inr (Or.inr (Or.inl rfl))
        | some code =>
          dsimp only
          by_cases hc : code ≠ 200
          · rw [if_pos hc]
            exact Or.inr (Or.inr (Or.inl rfl))
          · rw [if_neg hc]
            exact Or.inr (Or.inr (Or.inr ⟨true, rfl⟩))
      · rw [if_neg h2]
        exact Or.inr (Or.inr (Or.inr ⟨false, rfl⟩))

lemma resize_modify_fresh (env : Ec2Env) (t : ℤ) (cs : ℤ) (st : String)
    (hd : env.describeResult = some (cs, st)) (h1 : cs ≠ t) (h2 : st ≠ "modifying") :
    (resize_volume env t).modifyCalled = true := by
  unfold resize_volume
  rw [hd]
  dsimp only
  rw [if_neg (by tauto : ¬(cs = t ∧ st = "in-use"))]
  rw [if_pos ⟨h1, h2⟩]
  cases hm : env.modifyResult with
  | none => rfl
  | some code =>
    dsimp only
    split
    · rfl
    · exact afterRequest_modifyCalled env t true

lemma perform_ret_not_truthy (inc : ℤ) (env : PerformEnv) (vol : VolumeInfo) (q : ℚ) :
    (perform_scaling inc env vol q).ret.truthy = false := by
  simp only [perform_scaling]
  split
  · split
    · split <;> rfl
    · rfl
  · split <;> rfl

lemma processVolume_attempted (cfg : Config) (e : SweepVolEnv) (pct q : ℚ)
    (r : PerformResult) (h : processVolume cfg e = .attempted pct q r) :
    r = perform_scaling cfg.increase_gb e.penv e.volume q := by
  unfold processVolume at h
  split at h
  · cases h
  · rcases hreq : is_scaling_required cfg e.usage with ⟨b, pct', quote'⟩
    rw [hreq] at h
    cases b
    · cases h
    · injection h with h1 h2 h3
      subst h2
      exact h3.symm

lemma sweepScaled_nil (cfg : Config) : ∀ envs, sweepScaled cfg envs = [] := by
  intro envs
  induction envs with
  | nil => rfl
  | cons e rest ih =>
    rw [sweepScaled]
    cases hp : processVolume cfg e with
    | excludedSkip => exact ih
    | notNeeded pct => exact ih
    | attempted pct q r =>
      rw [processVolume_attempted cfg e pct q r hp]
      simp [perform_ret_not_truthy, ih]

lemma expand_all_larger (env : FsEnv) (vol : VolumeInfo) (exp : ℤ)
    (h : ∀ i, i < 12 → exp < ceil_gb (env.deviceSizes i)) :
    expand_filesystem env vol exp = ⟨false, 12, false, none, false, false, none⟩ := by
  unfold expand_filesystem
  rw [sizeWait_all_ne env.deviceSizes exp 12 0 rfl (by omega)
    (fun i hi1 hi2 => by have := h i hi2; omega)]
  rfl

lemma fsGrowStep_fields (env : FsEnv) (vol : VolumeInfo) (checks : ℕ) (gpc : Bool)
    (gpa : Option (String × String)) :
    (fsGrowStep env vol checks gpc gpa).growpartCalled = gpc ∧
    (fsGrowStep env vol checks gpc gpa).growpartArgs = gpa ∧
    (fsGrowStep env vol checks gpc gpa).blkidCalled = true ∧
    (fsGrowStep env vol checks gpc gpa).fsGrowCalled = true := by
  simp only [fsGrowStep]
  split
  · split <;> exact ⟨rfl, rfl, rfl, rfl⟩
  · split <;> exact ⟨rfl, rfl, rfl, rfl⟩

/-! ## Evaluation lemmas for the concrete fixtures -/

lemma sizeWait_fsOk : sizeWait fsOk.deviceSizes 110 12 0 = (true, 1) :=
  sizeWait_immediate _ _ 11 0 (ceil_gb_mul 110)

lemma sizeWait_fsAt100 : sizeWait fsAt100.deviceSizes 100 12 0 = (true, 1) :=
  sizeWait_immediate _ _ 11 0 (ceil_gb_mul 100)

lemma sizeWait_fsGpFail : sizeWait fsGpFail.deviceSizes 110 12 0 = (true, 1) :=
  sizeWait_immediate _ _ 11 0 (ceil_gb_mul 110)

lemma expand_fsOk_vol1 : expand_filesystem fsOk vol1 110 =
    ⟨true, 1, true, some ("/dev/nvme0n1", "1"), true, true, some "/data"⟩ := by
  rw [expand_filesystem, sizeWait_fsOk]
  decide

lemma expand_fsAt100_volXvdp : expand_filesystem fsAt100 volXvdp 100 =
    ⟨true, 1, true, some ("/dev/xvdp", ""), true, true, some "/data"⟩ := by
  rw [expand_filesystem, sizeWait_fsAt100]
  decide

lemma penv1_partition_sum : partition_sum_bytes penv1 vol1 = 90 * 2 ^ 30 := by decide

lemma penv1_total : volume_total_size_gb penv1 = 100 := by
  norm_num [volume_total_size_gb, penv1]

lemma penv1_free : free_space_gb penv1 vol1 = 10 := by
  rw [free_space_gb, penv1_partition_sum]
  norm_num [penv1]

lemma penv1_additional : additional_volume_needed_gb 20 penv1 vol1 = 10 := by
  rw [additional_volume_needed_gb, penv1_free]
  norm_num

lemma penv1_expected :
    (⌈volume_total_size_gb penv1 + ((additional_volume_needed_gb 20 penv1 vol1 : ℤ) : ℚ)⌉ : ℤ) = 110 := by
  rw [penv1_total, penv1_additional]
  norm_num

lemma perform_penv1 : perform_scaling 20 penv1 vol1 120 =
    ⟨.vNone, some 110, some 110, 110,
      some ⟨true, 1, true, some ("/dev/nvme0n1", "1"), true, true, some "/data"⟩⟩ := by
  simp only [perform_scaling]
  rw [penv1_expected, penv1_additional]
  rw [show penv1.fs = fsOk from rfl, show penv1.ec2 = ec2ok from rfl, expand_fsOk_vol1]
  decide

lemma penvBroken_partition_sum : partition_sum_bytes penvBroken vol2 = 90 * 2 ^ 30 := by decide

lemma penvBroken_total : volume_total_size_gb penvBroken = 100 := by
  norm_num [volume_total_size_gb, penvBroken]

lemma penvBroken_free : free_space_gb penvBroken vol2 = 10 := by
  rw [free_space_gb, penvBroken_partition_sum]
  norm_num [penvBroken]

lemma penvBroken_additional : additional_volume_needed_gb 20 penvBroken vol2 = 10 := by
  rw [additional_volume_needed_gb, penvBroken_free]
  norm_num

lemma penvBroken_expected :
    (⌈volume_total_size_gb penvBroken + ((additional_volume_needed_gb 20 penvBroken vol2 : ℤ) : ℚ)⌉ : ℤ) = 110 := by
  rw [penvBroken_total, penvBroken_additional]
  norm_num

lemma perform_penvBroken : perform_scaling 20 penvBroken vol2 120 =
    ⟨.vFalse, some 110, none, 110, none⟩ := by
  simp only [perform_scaling]
  rw [penvBroken_expected, penvBroken_additional]
  rw [show penvBroken.ec2 = ec2Broken from rfl]
  decide

lemma isreq_95 : is_scaling_required cfg1 (some (100 * 2 ^ 30, 95)) = (true, 95, 120) := by
  unfold is_scaling_required
  dsimp only
  rw [if_pos (by norm_num [cfg1] : cfg1.threshold < (95 : ℚ))]
  refine Prod.ext rfl (Prod.ext rfl ?_)
  norm_num [cfg1]

lemma isreq_70 : is_scaling_required cfg1 (some (100 * 2 ^ 30, 70)) = (false, 70, 0) := by
  unfold is_scaling_required
  dsimp only
  rw [if_neg (by norm_num [cfg1] : ¬ cfg1.threshold < (70 : ℚ))]

lemma process_senv1 : processVolume cfg1 senv1 =
    .attempted 95 120 (perform_scaling 20 penv1 vol1 120) := by
  unfold processVolume
  rw [show senv1.usage = some (100 * 2 ^ 30, (95 : ℚ)) from rfl, isreq_95]
  rfl

lemma process_senvBroken : processVolume cfg1 senvBroken =
    .attempted 95 120 (perform_scaling 20 penvBroken vol2 120) := by
  unfold processVolume
  rw [show senvBroken.usage = some (100 * 2 ^ 30, (95 : ℚ)) from rfl, isreq_95]
  rfl

/-! ## Claim theorems -/

/-- C1: the control loop is supposed to append a scale-report entry for every
volume whose full scaling chain succeeds and hand the aggregated list to the
notification collaborator at sweep end.  The source's `perform_scaling` has no
`return True`: on the all-success path it falls off the end and returns
`None`, which is falsy, so no sweep ever collects an entry or notifies — even
on a concrete run (`penv1`/`vol1`) in which the cloud resize and the
filesystem expansion both succeed. -/
theorem c1_scale_report_never_collected :
    (∀ (inc : ℤ) (env : PerformEnv) (vol : VolumeInfo) (q : ℚ),
      (perform_scaling inc env vol q).ret.truthy = false) ∧
    (∀ (cfg : Config) (envs : List SweepVolEnv),
      sweepScaled cfg envs = [] ∧ notificationSent cfg envs = false) ∧
    perform_scaling 20 penv1 vol1 120 =
      ⟨.vNone, some 110, some 110, 110,
        some ⟨true, 1, true, some ("/dev/nvme0n1", "1"), true, true, some "/data"⟩⟩ ∧
    sweepScaled cfg1 [senv1] = [] := by
  refine ⟨perform_ret_not_truthy, fun cfg envs => ⟨sweepScaled_nil cfg envs, ?_⟩,
    perform_penv1, sweepScaled_nil cfg1 [senv1]⟩
  rw [notificationSent, sweepScaled_nil]
  rfl

/-- C2: the reconciler computes `free_space_gb` as the volume total minus the
sum of the partitions prefixed by the root device path and
`additional_needed_gb = ceil(increase_gb - free_space_gb)`; when the latter is
non-positive no cloud resize is requested and the expected target is
`ceil(volume_total_gb)`, otherwise the resize is requested with
`ceil(volume_total_gb + additional_needed_gb)` and, whenever the volume is not
already at that size or being modified, `ModifyVolume` is issued with exactly
that size. -/
theorem c2_free_space_reconciliation (inc : ℤ) (env : PerformEnv)
    (vol : VolumeInfo) (q : ℚ) :
    free_space_gb env vol =
      volume_total_size_gb env - (partition_sum_bytes env vol : ℚ) / 2 ^ 30 ∧
    additional_volume_needed_gb inc env vol = ⌈(inc : ℚ) - free_space_gb env vol⌉ ∧
    (additional_volume_needed_gb inc env vol ≤ 0 →
      (perform_scaling inc env vol q).resizeTarget = none ∧
      (perform_scaling inc env vol q).modifyArg = none ∧
      (perform_scaling inc env vol q).expectedTarget = ⌈volume_total_size_gb env⌉) ∧
    (∀ cs st, 0 < additional_volume_needed_gb inc env vol →
      env.ec2.describeResult = some (cs, st) →
      cs ≠ ⌈volume_total_size_gb env + ((additional_volume_needed_gb inc env vol : ℤ) : ℚ)⌉ →
      st ≠ "modifying" →
      (perform_scaling inc env vol q).resizeTarget =
        some ⌈volume_total_size_gb env + ((additional_volume_needed_gb inc env vol : ℤ) : ℚ)⌉ ∧
      (perform_scaling inc env vol q).modifyArg =
        some ⌈volume_total_size_gb env + ((additional_volume_needed_gb inc env vol : ℤ) : ℚ)⌉ ∧
      (perform_scaling inc env vol q).expectedTarget =
        ⌈volume_total_size_gb env + ((additional_volume_needed_gb inc env vol : ℤ) : ℚ)⌉) := by
  refine ⟨by rw [free_space_gb, volume_total_size_gb, sub_div], rfl, ?_, ?_⟩
  · intro h
    simp only [perform_scaling]
    rw [if_neg (not_lt.mpr h)]
    refine ⟨?_, ?_, ?_⟩ <;> split <;> rfl
  · intro cs st hpos hd hne hst
    simp only [perform_scaling]
    rw [if_pos hpos]
    have hm := resize_modify_fresh env.ec2
      ⌈volume_total_size_gb env + ((additional_volume_needed_gb inc env vol : ℤ) : ℚ)⌉
      cs st hd hne hst
    rw [hm]
    refine ⟨?_, ?_, ?_⟩ <;> split <;> first | rfl | (split <;> rfl)

/-- C2 witness: the spec's 100GB/90GB/20GB example: free space 10GB,
additional 10GB, `ModifyVolume` issued with 110. -/
theorem c2_free_space_reconciliation_witness :
    free_space_gb penv1 vol1 = 10 ∧
    additional_volume_needed_gb 20 penv1 vol1 = 10 ∧
    (perform_scaling 20 penv1 vol1 120).modifyArg = some 110 ∧
    (perform_scaling 20 penv1 vol1 120).expectedTarget = 110 := by
  have h := (c2_free_space_reconciliation 20 penv1 vol1 120).2.2.2 100 "in-use"
    (by rw [penv1_additional]; norm_num) rfl
    (by rw [penv1_expected]; decide) (by decide)
  refine ⟨penv1_free, penv1_additional, ?_, ?_⟩
  · rw [h.2.1, penv1_expected]
  · rw [h.2.2, penv1_expected]

/-- C3: the spec says a `completed` modification state on any of the 30
polling attempts breaks to verification, where a size at or above the target
is success.  The timeout guard `attempt == max_attempts - 1` also fires when
the loop breaks on `completed` at the 30th (final) attempt, so that run
returns failure without any verification even though the re-fetched size
equals the target; the spec's four-query example itself behaves as stated. -/
theorem c3_completed_on_final_attempt_not_verified :
    resize_volume ec2CompletedLast 110 = ⟨false, true, 30⟩ ∧
    ec2CompletedLast.verifySize = some 110 ∧
    (∀ i, i < 29 → ec2CompletedLast.modSeq i = .mstate "optimizing") ∧
    ec2CompletedLast.modSeq 29 = .mstate "completed" ∧
    resize_volume ec2FourQueries 110 = ⟨true, true, 4⟩ :=
  ⟨by decide, rfl, by decide, rfl, by decide⟩

/-- C4: when the initial describe reports the volume already at the target
size and `in-use`, the orchestrator returns success immediately: no
`ModifyVolume` request and no modification-status query is ever issued. -/
theorem c4_idempotent_short_circuit (env : Ec2Env) (target : ℤ)
    (h : env.describeResult = some (target, "in-use")) :
    resize_volume env target = ⟨true, false, 0⟩ := by
  unfold resize_volume
  rw [h]
  dsimp only
  rw [if_pos ⟨rfl, rfl⟩]

/-- C4 witness: a volume already at 110GB and `in-use` short-circuits. -/
theorem c4_idempotent_short_circuit_witness :
    resize_volume ec2Idem 110 = ⟨true, false, 0⟩ :=
  c4_idempotent_short_circuit ec2Idem 110 rfl

/-- C5 counterexample: `/dev/xvdp` is a whole-device target — its partition
path is the root device path itself and its base name is exactly the device
name, with no partition suffix — yet the partition test `'p' in basename`
holds, so `growpart` is invoked (with an empty partition index), refuting
"for a whole-device target, the partition-grow operation is never invoked". -/
theorem c5_whole_device_growpart_invoked :
    volXvdp.partition_path = "/dev/" ++ volXvdp.device_name ∧
    os_path_basename volXvdp.partition_path = volXvdp.device_name ∧
    (expand_filesystem fsAt100 volXvdp 100).growpartCalled = true ∧
    (expand_filesystem fsAt100 volXvdp 100).growpartArgs = some ("/dev/xvdp", "") := by
  refine ⟨rfl, by decide, ?_, ?_⟩ <;> rw [expand_fsAt100_volXvdp]

/-- C5 (amended): once the device-size wait has converged, the code treats
the target as a partition exactly when the character `p` occurs in the base
name of the target path (not by comparing against the parent device name).
For such targets `growpart` is invoked against the parent device and must
succeed before `blkid` probes the type or any filesystem grow runs — a
non-zero `growpart` exit is failure with no probe and no grow; for base
names without `p`, `growpart` is never invoked. -/
theorem c5_partition_detection_by_p (env : FsEnv) (vol : VolumeInfo) (exp : ℤ)
    (hconv : (sizeWait env.deviceSizes exp 12 0).1 = true) :
    (pyContainsChar (os_path_basename vol.partition_path) 'p' = true →
      (expand_filesystem env vol exp).growpartCalled = true ∧
      (expand_filesystem env vol exp).growpartArgs =
        some ("/dev/" ++ vol.device_name,
          List.getLastD (pySplit (os_path_basename vol.partition_path) 'p') "") ∧
      (env.growpartRc ≠ 0 →
        (expand_filesystem env vol exp).success = false ∧
        (expand_filesystem env vol exp).blkidCalled = false ∧
        (expand_filesystem env vol exp).fsGrowCalled = false) ∧
      (env.growpartRc = 0 →
        (expand_filesystem env vol exp).blkidCalled = true ∧
        (expand_filesystem env vol exp).fsGrowCalled = true)) ∧
    (pyContainsChar (os_path_basename vol.partition_path) 'p' = false →
      (expand_filesystem env vol exp).growpartCalled = false) := by
  simp only [expand_filesystem, hconv, Bool.not_true, Bool.false_eq_true, if_false]
  constructor
  · intro hp
    simp only [hp, if_true]
    by_cases hg : env.growpartRc = 0
    · rw [if_neg (by simp [hg])]
      obtain ⟨h1, h2, h3, h4⟩ := fsGrowStep_fields env vol
        (sizeWait env.deviceSizes exp 12 0).2 true
        (some ("/dev/" ++ vol.device_name,
          List.getLastD (pySplit (os_path_basename vol.partition_path) 'p') ""))
      exact ⟨h1, h2, fun hne => absurd hg hne, fun _ => ⟨h3, h4⟩⟩
    · rw [if_pos hg]
      exact ⟨rfl, rfl, fun _ => ⟨rfl, rfl, rfl⟩, fun heq => absurd heq hg⟩
  · intro hp
    simp only [hp, Bool.false_eq_true, if_false]
    exact (fsGrowStep_fields env vol _ false none).1

/-- C5 witness: for the partitioned target `/dev/nvme0n1p1` with a failing
`growpart`, local growth fails with no filesystem-type probe and no
filesystem grow. -/
theorem c5_partition_detection_by_p_witness :
    (expand_filesystem fsGpFail vol1 110).success = false ∧
    (expand_filesystem fsGpFail vol1 110).growpartCalled = true ∧
    (expand_filesystem fsGpFail vol1 110).blkidCalled = false ∧
    (expand_filesystem fsGpFail vol1 110).fsGrowCalled = false := by
  obtain ⟨h1, h2, h3, _⟩ :=
    (c5_partition_detection_by_p fsGpFail vol1 110 (by rw [sizeWait_fsGpFail])).1 (by decide)
  obtain ⟨hs, hb, hf⟩ := h3 (by decide)
  exact ⟨hs, h1, hb, hf⟩

/-- C6: polling makes at most 30 status queries, 60 seconds apart; a `failed`
state on attempt `k` (after only in-progress states) fails immediately after
exactly `k + 1` queries, and 30 in-progress states exhaust the budget and
fail with exactly 30 queries. -/
theorem c6_polling_budget (env : Ec2Env) (t : ℤ) :
    (resize_volume env t).statusQueries ≤ max_attempts ∧
    (∀ k, k < max_attempts →
      (∀ i, i < k → (env.modSeq i).inProgress = true) →
      env.modSeq k = .mstate "failed" →
      entersPolling env t = true →
      (resize_volume env t).success = false ∧
      (resize_volume env t).statusQueries = k + 1) ∧
    ((∀ i, i < max_attempts → (env.modSeq i).inProgress = true) →
      entersPolling env t = true →
      (resize_volume env t).success = false ∧
      (resize_volume env t).statusQueries = max_attempts) ∧
    max_attempts = 30 ∧ poll_delay_seconds = 60 := by
  refine ⟨?_, ?_, ?_, rfl, rfl⟩
  · rcases resize_volume_cases env t with h | h | h | ⟨b, h⟩ <;> rw [h]
    · exact Nat.zero_le _
    · exact Nat.zero_le _
    · exact Nat.zero_le _
    · rw [afterRequest_queries]
      simpa using pollFrom_queries_le env.modSeq max_attempts 0
  · intro k hk hpre hfail hpoll
    obtain ⟨b, hb⟩ := resize_volume_poll env t hpoll
    have hpf : pollFrom env.modSeq max_attempts 0 = .pollFail k :=
      pollFrom_prefix_failed env.modSeq max_attempts 0 k (Nat.zero_le k) (by omega)
        (fun i _ hik => hpre i hik) hfail
    rw [hb, afterRequest_pollFail env t b k hpf]
    exact ⟨rfl, rfl⟩
  · intro hall hpoll
    obtain ⟨b, hb⟩ := resize_volume_poll env t hpoll
    have hex : pollFrom env.modSeq max_attempts 0 = .exhausted (0 + max_attempts) :=
      pollFrom_all_inProgress env.modSeq max_attempts 0 (fun i _ h2 => hall i (by omega))
    rw [hb, afterRequest_exhausted env t b _ hex]
    exact ⟨rfl, Nat.zero_add _⟩

/-- C6 witness: a volume already `modifying` whose first status query reads
`failed` fails with exactly one query. -/
theorem c6_polling_budget_witness :
    entersPolling ec2Modifying 110 = true ∧
    (resize_volume ec2Modifying 110).success = false ∧
    (resize_volume ec2Modifying 110).statusQueries = 1 := by
  have h := (c6_polling_budget ec2Modifying 110).2.1 0 (by decide)
    (fun i hi => absurd hi (Nat.not_lt_zero i)) rfl (by decide)
  exact ⟨by decide, h.1, h.2⟩

/-- C7: the usage check returns `needed = usage_percent > threshold` with the
uncapped, unrounded naive target `current_total_gb + increase_gb` when
needed; a failed usage query returns `needed = false` with zero-valued
fields; and a volume at or below the threshold triggers no `ModifyVolume`,
no `growpart`, and no filesystem grow in that sweep. -/
theorem c7_usage_decision (cfg : Config) :
    (∀ (total : ℕ) (percent : ℚ),
      is_scaling_required cfg (some (total, percent)) =
        (decide (cfg.threshold < percent), percent,
          if cfg.threshold < percent then (total : ℚ) / 2 ^ 30 + (cfg.increase_gb : ℚ)
          else 0)) ∧
    is_scaling_required cfg none = (false, 0, 0) ∧
    (∀ (e : SweepVolEnv) (total : ℕ) (percent : ℚ),
      e.usage = some (total, percent) → percent ≤ cfg.threshold →
      (processVolume cfg e).modifyArg = none ∧
      (processVolume cfg e).growpartCalled = false ∧
      (processVolume cfg e).fsGrowCalled = false) := by
  refine ⟨?_, rfl, ?_⟩
  · intro total percent
    unfold is_scaling_required
    dsimp only
    by_cases h : cfg.threshold < percent
    · rw [if_pos h, if_pos h]
      simp [h]
    · rw [if_neg h, if_neg h]
      simp [h]
  · intro e total percent hu hle
    have hproc : processVolume cfg e = .excludedSkip ∨
        processVolume cfg e = .notNeeded percent := by
      unfold processVolume
      split
      · exact Or.inl rfl
      · rw [hu]
        unfold is_scaling_required
        dsimp only
        rw [if_neg (not_lt.mpr hle)]
        exact Or.inr rfl
    rcases hproc with h | h <;> rw [h] <;> exact ⟨rfl, rfl, rfl⟩

/-- C7 witness: `vol1` at 70 percent under an 80 percent threshold issues no
modify and no growth call. -/
theorem c7_usage_decision_witness :
    (processVolume cfg1 senvLow).modifyArg = none ∧
    (processVolume cfg1 senvLow).growpartCalled = false ∧
    (processVolume cfg1 senvLow).fsGrowCalled = false :=
  (c7_usage_decision cfg1).2.2 senvLow (100 * 2 ^ 30) 70 rfl (by norm_num [cfg1])

/-- C8: when the initial describe reports state `modifying`, no
`ModifyVolume` request is issued and the orchestrator proceeds directly to
polling (at least one status query is made), so a second concurrent modify
request is never issued for the volume. -/
theorem c8_modifying_skips_request (env : Ec2Env) (t : ℤ) (cs : ℤ)
    (h : env.describeResult = some (cs, "modifying")) :
    (resize_volume env t).modifyCalled = false ∧
    1 ≤ (resize_volume env t).statusQueries := by
  have hpath : resize_volume env t = afterRequest env t false := by
    unfold resize_volume
    rw [h]
    dsimp only
    rw [if_neg (by simp : ¬(cs = t ∧ ("modifying" : String) = "in-use"))]
    rw [if_neg (by simp : ¬(cs ≠ t ∧ ("modifying" : String) ≠ "modifying"))]
  rw [hpath, afterRequest_modifyCalled, afterRequest_queries]
  refine ⟨rfl, ?_⟩
  have := pollFrom_queries_pos env.modSeq max_attempts 0 (by norm_num [max_attempts])
  omega

/-- C8 witness: `ec2Modifying` reports `modifying`; no modify request, one
status query made. -/
theorem c8_modifying_skips_request_witness :
    (resize_volume ec2Modifying 110).modifyCalled = false ∧
    1 ≤ (resize_volume ec2Modifying 110).statusQueries :=
  c8_modifying_skips_request ec2Modifying 110 100 rfl

/-- C9: in every sweep, the usage decision recorded for each non-excluded
volume is computed from that volume's own data alone — the sweep's decision
list is exactly the per-volume map over the non-excluded volumes, so a
failure on one volume (here `vol2`, whose cloud describe raises and whose
scaling attempt fails) never prevents the usage evaluation and decision on
the next volume in the same sweep. -/
theorem c9_sweep_isolation :
    (∀ (cfg : Config) (envs : List SweepVolEnv),
      sweepDecisions cfg envs =
        (envs.filter fun e => !decide (e.volume.volume_id ∈ cfg.excluded_volumes)).map
          fun e => (e.volume.volume_id, is_scaling_required cfg e.usage)) ∧
    processVolume cfg1 senvBroken =
      .attempted 95 120 (perform_scaling 20 penvBroken vol2 120) ∧
    (perform_scaling 20 penvBroken vol2 120).ret = PyRet.vFalse ∧
    sweepDecisions cfg1 [senvBroken, senvLow] =
      [("vol-0c3", (true, 95, 120)), ("vol-0a1", (false, 70, 0))] := by
  refine ⟨?_, process_senvBroken, by rw [perform_penvBroken], ?_⟩
  · intro cfg envs
    induction envs with
    | nil => rfl
    | cons e rest ih =>
      rw [sweepDecisions]
      by_cases h : e.volume.volume_id ∈ cfg.excluded_volumes
      · rw [if_pos h]
        simp [List.filter, h, ih]
      · rw [if_neg h]
        simp [List.filter, h, ih]
  · rw [sweepDecisions, if_neg (by decide), sweepDecisions, if_neg (by decide),
      sweepDecisions]
    rw [show senvBroken.usage = some (100 * 2 ^ 30, (95 : ℚ)) from rfl, isreq_95,
      show senvLow.usage = some (100 * 2 ^ 30, (70 : ℚ)) from rfl, isreq_70]
    rfl

/-- C10: the device-size convergence wait succeeds only when the rounded-up
OS-visible size is exactly the expected total; if every polled size exceeds
the target — the very situation the cloud-side verification accepts as
success (`ec2Larger` verifies 120 > 110 and succeeds) — equality never
holds, all 12 checks are spent, and local growth fails with no `growpart`,
no probe, and no filesystem grow. -/
theorem c10_wait_requires_exact_size (env : FsEnv) (vol : VolumeInfo) (exp : ℤ) :
    ((∀ i, i < 12 → exp < ceil_gb (env.deviceSizes i)) →
      expand_filesystem env vol exp = ⟨false, 12, false, none, false, false, none⟩) ∧
    ((sizeWait env.deviceSizes exp 12 0).1 = true →
      ∃ i, i < 12 ∧ ceil_gb (env.deviceSizes i) = exp) ∧
    resize_volume ec2Larger 110 = ⟨true, true, 1⟩ ∧
    (∀ i, i < 12 → (110 : ℤ) < ceil_gb (fsAt120.deviceSizes i)) ∧
    expand_filesystem fsAt120 vol1 110 = ⟨false, 12, false, none, false, false, none⟩ := by
  have h120 : ∀ i, i < 12 → (110 : ℤ) < ceil_gb (fsAt120.deviceSizes i) := by
    intro i _
    rw [show fsAt120.deviceSizes i = 120 * 2 ^ 30 from rfl, ceil_gb_mul]
    norm_num
  refine ⟨fun h => expand_all_larger env vol exp h, ?_, by decide, h120,
    expand_all_larger fsAt120 vol1 110 h120⟩
  intro h
  rcases hsw : sizeWait env.deviceSizes exp 12 0 with ⟨b, c⟩
  rw [hsw] at h
  have hb : b = true := h
  subst hb
  obtain ⟨i, _, hi2, hi3⟩ := sizeWait_true_exists env.deviceSizes exp 12 0 c hsw
  exact ⟨i, by omega, hi3⟩

/-- C10 witness: a device steady at 120GB against an expected total of 110GB
exhausts all 12 checks and local growth fails before any tool runs. -/
theorem c10_wait_requires_exact_size_witness :
    expand_filesystem fsAt120 volXvdp 110 =
      ⟨false, 12, false, none, false, false, none⟩ :=
  (c10_wait_requires_exact_size fsAt120 volXvdp 110).1 (fun i _ => by
    rw [show fsAt120.deviceSizes i = 120 * 2 ^ 30 from rfl, ceil_gb_mul]
    norm_num)

end EbsScaler
